import Mathlib

/-!
Verification development for the ALONI booking engine
(`scripts/book_class_mvp_v3_1.py` and `scripts/book_class_verified_functional.py`).

The Python sources are shallowly embedded below.  Pure text manipulation
(`str.lower`, `str.strip`, `re.sub` whitespace collapsing, substring tests)
is modelled over `List Char`; `datetime.date` is modelled by a proleptic
Gregorian `Date` with Python's `date.toordinal` day numbering; the
browser-facing observations (visibility of elements, dialog presence,
extracted row texts) are inputs to the embedded control-flow functions,
one input per observation point of the source code.
-/

namespace Aloni

/-! ## Python string primitives -/

/-- Whitespace characters recognised by Python's `\s` / `str.strip`
(restricted to the characters that occur in the texts the engine reads). -/
def isWs (c : Char) : Bool :=
  c == ' ' || c == '\t' || c == '\n' || c == '\r'

/-- Substring test `listStarts s p`: does `s` start with `p`?
Models the prefix step of Python's `in` operator. -/
def listStarts : List Char → List Char → Bool
  | _, [] => true
  | [], _ :: _ => false
  | a :: s, b :: p => a == b && listStarts s p

/-- Substring containment on character lists: Python's `pat in s`. -/
def listHasSub : List Char → List Char → Bool
  | [], p => listStarts [] p
  | a :: s, p => listStarts (a :: s) p || listHasSub s p

/-- Python `pat in s` for strings. -/
def strHasSub (s pat : String) : Bool :=
  listHasSub s.data pat.data

/-- Collapse every whitespace run to a single space:
Python `re.sub(r"\s+", " ", s)`.  The boolean argument records whether the
previous character belonged to a whitespace run. -/
def collapseWsAux : Bool → List Char → List Char
  | _, [] => []
  | prevWs, c :: rest =>
    if isWs c then
      if prevWs then collapseWsAux true rest
      else ' ' :: collapseWsAux true rest
    else c :: collapseWsAux false rest

/-- Python `re.sub(r"\s+", " ", s)`. -/
def collapseWs (l : List Char) : List Char :=
  collapseWsAux false l

/-- Python `str.strip()`. -/
def trimChars (l : List Char) : List Char :=
  ((l.dropWhile isWs).reverse.dropWhile isWs).reverse

/-- Python `str.lower()` (ASCII, which covers every text the engine reads). -/
def lowerChars (l : List Char) : List Char :=
  l.map Char.toLower

/-- Python `re.sub(r"\s+", "", s)`: delete all whitespace. -/
def stripAllWs (s : String) : String :=
  ⟨s.data.filter (fun c => !isWs c)⟩

/-- Python `s.strip().lower()`. -/
def trimLower (s : String) : String :=
  ⟨lowerChars (trimChars s.data)⟩

/-! ## Date model (Python `datetime.date`) -/

/-- A calendar date, as Python's `datetime.date` (the engine never uses the
time-of-day part of the `datetime` values it compares: every comparison in
the source goes through `.date()` or `strftime`). -/
structure Date where
  year : Nat
  month : Nat
  day : Nat
deriving DecidableEq, Repr

/-- Gregorian leap-year rule (Python `calendar.isleap`). -/
def isLeap (y : Nat) : Bool :=
  (y % 4 == 0 && y % 100 != 0) || (y % 400 == 0)

/-- Month lengths for a (non-)leap year. -/
def monthLengths (leap : Bool) : List Nat :=
  [31, if leap then 29 else 28, 31, 30, 31, 30, 31, 31, 30, 31, 30, 31]

/-- Days in the months strictly before month `m`. -/
def daysBeforeMonth (leap : Bool) (m : Nat) : Nat :=
  ((monthLengths leap).take (m - 1)).sum

/-- Days in the years strictly before year `y` (proleptic Gregorian). -/
def daysBeforeYear (y : Nat) : Nat :=
  365 * (y - 1) + (y - 1) / 4 - (y - 1) / 100 + (y - 1) / 400

/-- Python `date.toordinal`: day 1 is January 1 of year 1. -/
def toOrdinal (d : Date) : Nat :=
  daysBeforeYear d.year + daysBeforeMonth (isLeap d.year) d.month + d.day

/-- Python `date.weekday()`: Monday = 0 … Sunday = 6.
`date(1, 1, 1)` (ordinal 1) is a Monday. -/
def weekdayIdxOfOrdinal (o : Nat) : Nat :=
  (o + 6) % 7

/-- Python `strftime("%A")` names indexed by `weekday()`. -/
def weekdayFullNames : List String :=
  ["Monday", "Tuesday", "Wednesday", "Thursday", "Friday", "Saturday", "Sunday"]

/-- The `%A` name of the day with ordinal `o`. -/
def weekdayNameOfOrdinal (o : Nat) : String :=
  weekdayFullNames.getD (weekdayIdxOfOrdinal o) ""

/-! ## DateTargetResolver (`book_class_mvp_v3_1.py`, `_target_date` and `main`) -/

/-- Ordinal of Python's `date.min` (0001-01-01). -/
def dateMinOrd : Int :=
  toOrdinal ⟨1, 1, 1⟩

/-- Ordinal of Python's `date.max` (9999-12-31), i.e. 3652059. -/
def dateMaxOrd : Int :=
  toOrdinal ⟨9999, 12, 31⟩

/-- Embedding of `_target_date` (line 28):
`datetime.now().date() + timedelta(days=days_ahead)`.
Dates are represented by their ordinals.  Python's date arithmetic raises
`OverflowError` exactly when the result leaves `[date.min, date.max]`
(for a `nowOrd` inside that range, an offset too large for `timedelta`
also puts the result outside it, so the single range test covers both
raise sites); within the range it returns the shifted date.  The body
contains no other check — in particular no test on the sign of
`days_ahead`. -/
def targetDateRun (nowOrd : Int) (daysAhead : Int) : Except String Int :=
  if dateMinOrd ≤ nowOrd + daysAhead ∧ nowOrd + daysAhead ≤ dateMaxOrd then
    Except.ok (nowOrd + daysAhead)
  else Except.error "OverflowError: date value out of range"

/-- Outcome of the weekday gate at the top of `main`. -/
inductive MvpOutcome where
  | skipped (msg : String)
  | proceeded
deriving DecidableEq, Repr

/-- The weekday allow-list of `main` (line 45). -/
def validDays : List String :=
  ["Monday", "Tuesday", "Wednesday"]

/-- Embedding of `main` lines 39–48 of `book_class_mvp_v3_1.py` (the same
gate appears at lines 867–869 of `book_class_verified_functional.py`):
compute `target = now + 13 days`, read its `%A` weekday name, and skip the
run unless that name is in the allow-list.  `nowOrd` is the ordinal of
`datetime.now().date()`. -/
def mvpMainDecision (nowOrd : Nat) : MvpOutcome :=
  let targetOrd := nowOrd + 13
  let weekday := weekdayNameOfOrdinal targetOrd
  if validDays.contains weekday then MvpOutcome.proceeded
  else MvpOutcome.skipped "not a booking day"

/-! ## DriftDetector heading normalization
(`book_class_verified_functional.py`, `_read_selected_schedule_date`) -/

/-- Embedding of lines 48–55 of `_read_selected_schedule_date`: the heading
parsed as month `m`, day `d` is first given the current year, then the year
is corrected for rollover: `candidate.date() < (now - 200 days).date()`
bumps the year up, `candidate.date() > (now + 200 days).date()` bumps it
down.  `.date()` comparisons are ordinal comparisons. -/
def resolveHeadingDate (now : Date) (m d : Nat) : Date :=
  let candidate : Date := ⟨now.year, m, d⟩
  if (toOrdinal candidate : Int) < (toOrdinal now : Int) - 200 then
    ⟨now.year + 1, m, d⟩
  else if (toOrdinal candidate : Int) > (toOrdinal now : Int) + 200 then
    ⟨now.year - 1, m, d⟩
  else candidate

/-! ## ReloadAwaiter (`_wait_for_session_reload`) -/

/-- One polling loop of `_wait_for_session_reload` (lines 515–524).
`vis k` is what `_any_visible()` returns at the k-th poll instant (polls
are 150 ms apart, so the elapsed time at poll `k` is `150 * k` ms).
`sawBlank` is the `saw_blank` flag; `fuel` bounds the iteration count and
is chosen so that the timeout check always fires first. -/
def waitReloadGo (vis : Nat → Bool) (timeoutMs : Nat) :
    Nat → Nat → Bool → Bool
  | 0, k, _ => vis k
  | fuel + 1, k, sawBlank =>
    if 150 * k ≥ timeoutMs then vis k
    else
      let v := vis k
      if v && (sawBlank || decide (150 * k > 600)) then true
      else waitReloadGo vis timeoutMs fuel (k + 1) (sawBlank || !v)

/-- Embedding of `_wait_for_session_reload(page, timeout_ms)`: returns the
`observedReload` boolean.  The final `return _any_visible()` after the
`while` loop is the `vis k` read in the timeout branch. -/
def waitForSessionReload (vis : Nat → Bool) (timeoutMs : Nat) : Bool :=
  waitReloadGo vis timeoutMs (timeoutMs / 150 + 1) 0 false

/-! ## SessionMatcher (`find_row` inside `main`, lines 1000–1036, plus
`_row_has_forbidden_status` and `_row_cta_text`) -/

/-- A rendered session row as the engine observes it: `text` is what
`rows.nth(i).inner_text()` returns, `ctas` are the inner texts of the CTA
candidates enumerated by `_row_cta_text`'s selector ladder, in order. -/
structure Row where
  text : String
  ctas : List String
deriving DecidableEq, Repr

/-- `text_norm` of `find_row` (line 1016–1017):
`re.sub(r"\s+", " ", text.lower()).strip()`. -/
def normRowText (s : String) : String :=
  ⟨trimChars (collapseWs (lowerChars s.data))⟩

/-- `time_norm` of `find_row` (line 1018): `re.sub(r"\s+", "", text_norm)`. -/
def rowTimeNorm (textNorm : String) : String :=
  stripAllWs textNorm

/-- The disqualifying status terms of `_row_has_forbidden_status`
(lines 709–716). -/
def forbiddenStatusTerms : List String :=
  ["booked", "waitlisted", "join waitlist", "session started", "class full",
   "cancel class"]

/-- Embedding of `_row_has_forbidden_status(text_norm)` (lines 708–717). -/
def rowHasForbiddenStatus (textNorm : String) : Bool :=
  forbiddenStatusTerms.any (fun token => strHasSub textNorm token)

/-- CTA normalization inside `_row_cta_text` (line 701–702):
`re.sub(r"\s+", " ", text.strip()).lower()`. -/
def normCta (s : String) : String :=
  ⟨lowerChars (collapseWs (trimChars s.data))⟩

/-- Embedding of `_row_cta_text(row)` (lines 689–705): the first non-empty
normalized CTA text found in the row, else `""`. -/
def rowCtaText (r : Row) : String :=
  match r.ctas.findSome?
      (fun s => let t := normCta s; if t = "" then none else some t) with
  | some t => t
  | none => ""

/-- The time/location/category predicate of `find_row` (lines 1019–1023):
`"ys - yoga sculpt" in text_norm and "flatiron" in text_norm and
target_time_token in time_norm`. -/
def rowMatchesPred (timeToken : String) (r : Row) : Bool :=
  let tn := normRowText r.text
  strHasSub tn "ys - yoga sculpt" && strHasSub tn "flatiron" &&
    strHasSub (rowTimeNorm tn) timeToken

/-- Full per-row acceptance test of one scan pass of `find_row`
(lines 1014–1031): predicate match, then forbidden-status rejection, then
the exact CTA equality `cta_text != "book" → skip`. -/
def rowAccepted (timeToken : String) (r : Row) : Bool :=
  rowMatchesPred timeToken r &&
    !rowHasForbiddenStatus (normRowText r.text) &&
    rowCtaText r == "book"

/-- One scan pass over the currently rendered rows: the first row passing
all three checks is returned (rows failing any check are skipped with
`continue`). -/
def findRowPass (timeToken : String) (rows : List Row) : Option Row :=
  rows.find? (rowAccepted timeToken)

/-- The attempt loop of `find_row` (lines 1001–1036).  Each attempt first
runs the day-drift assertions (`_ensure_target_day_locked` /
`_assert_exact_target_day`), which raise on failure — `driftOk a = false`
models that raise; then it scans the rendered rows (`rowsAt a`); on no
match it scrolls and retries.  After the attempt budget it returns `none`. -/
def findRowLoop (timeToken : String) (driftOk : Nat → Bool)
    (rowsAt : Nat → List Row) : Nat → Nat → Except String (Option Row)
  | _, 0 => Except.ok none
  | a, fuel + 1 =>
    if driftOk a then
      match findRowPass timeToken (rowsAt a) with
      | some r => Except.ok (some r)
      | none => findRowLoop timeToken driftOk rowsAt (a + 1) fuel
    else Except.error "Active day mismatch."

/-- Embedding of `find_row()`: 26 attempts starting at attempt 0. -/
def findRow (timeToken : String) (driftOk : Nat → Bool)
    (rowsAt : Nat → List Row) : Except String (Option Row) :=
  findRowLoop timeToken driftOk rowsAt 0 26

/-! ## GuardedCommitter (`main` lines 1038–1074, `_cancel_modal_present`,
`_dismiss_cancel_modal_safe`, and the `EXECUTE_BOOKING` switch) -/

/-- Playwright `:has-text(pat)` semantics used by the modal selectors:
case-insensitive substring on whitespace-normalized element text. -/
def locHasTextCI (elementText pat : String) : Bool :=
  strHasSub ⟨lowerChars (collapseWs (trimChars elementText.data))⟩
    ⟨lowerChars pat.data⟩

/-- Embedding of `_dismiss_cancel_modal_safe(page)` (lines 728–743): when
the cancel modal is present, click the first element of the modal whose
text contains `KEEP RESERVATION` (both selectors of `keep_selectors`
require that text); returns the label of the clicked element, if any.  No
other element of the modal is ever clicked. -/
def dismissCancelModalSafe (modalPresent : Bool)
    (modalButtons : List String) : Option String :=
  if modalPresent then
    modalButtons.find? (fun b => locHasTextCI b "KEEP RESERVATION")
  else none

/-- Embedding of the `EXECUTE_BOOKING` parse (line 870):
`os.getenv("EXECUTE_BOOKING", "false").strip().lower() in
\x7b"1", "true", "yes", "y"\x7d`. -/
def parseExecuteBooking (env : Option String) : Bool :=
  ["1", "true", "yes", "y"].contains (trimLower (env.getD "false"))

/-- The observable actions of the commit phase, in execution order. -/
inductive Act where
  | assertDayGate
  | keepClick (label : String)
  | clickBook
deriving DecidableEq, Repr

/-- Terminal outcome of the booking phase (`Failed` models a raised
`RuntimeError`, `committed` the successful `✅ Clicked BOOK button` path,
`dryRun` the skipped click). -/
inductive BookOutcome where
  | committed
  | dryRun
  | failed (msg : String)
deriving DecidableEq, Repr

/-- The environment's responses at each observation point of the booking
section of `main` (lines 994–1074), one field per observation. -/
structure RunWorld where
  /-- `target_time_token` computed at line 998. -/
  timeToken : String
  /-- Whether the day-drift assertions inside attempt `a` of `find_row`
  pass. -/
  driftOkScan : Nat → Bool
  /-- The rows rendered during attempt `a` of `find_row`. -/
  rowsAt : Nat → List Row
  /-- The `execute_booking` flag (line 870). -/
  executeBooking : Bool
  /-- Whether `_assert_target_day_before_book` (line 1053) passes. -/
  driftOkAtBook : Bool
  /-- `_cancel_modal_present` at the pre-click check (line 1054). -/
  modalBefore : Bool
  /-- `_cancel_modal_present` at the post-click check (line 1065). -/
  modalAfter : Bool
  /-- The clickable texts inside the cancel modal, if it shows. -/
  modalButtons : List String
  /-- `book.count() > 0` for the BOOK CTA locator (lines 1045–1051). -/
  bookCtaFound : Bool
  /-- The matched row's state at the instant of the BOOK click (the row may
  have re-rendered since the `find_row` pass that accepted it). -/
  rowStateAtClick : Row

/-- Trace contribution of one `_dismiss_cancel_modal_safe` call. -/
def keepClickActs (modalButtons : List String) : List Act :=
  match dismissCancelModalSafe true modalButtons with
  | some b => [Act.keepClick b]
  | none => []

/-- Embedding of lines 1052–1072 of `main`: the guarded commit on the
matched row.  Returns the actions performed and the outcome.  Note that the
row matched by `find_row` is clicked through the handle captured during
matching; `rowStateAtClick` is never consulted. -/
def commitOnRow (w : RunWorld) : List Act × BookOutcome :=
  if !w.driftOkAtBook then
    ([Act.assertDayGate],
     BookOutcome.failed
       "Target day assertion failed immediately before BOOK click.")
  else if w.modalBefore then
    (Act.assertDayGate :: keepClickActs w.modalButtons,
     BookOutcome.failed "Cancel modal was already open before booking click.")
  else if !w.executeBooking then
    ([Act.assertDayGate], BookOutcome.dryRun)
  else if !w.bookCtaFound then
    ([Act.assertDayGate],
     BookOutcome.failed "Exact BOOK CTA not found on matched row.")
  else if w.modalAfter then
    (Act.assertDayGate :: Act.clickBook :: keepClickActs w.modalButtons,
     BookOutcome.failed "Cancel modal appeared after click; reservation preserved.")
  else
    ([Act.assertDayGate, Act.clickBook], BookOutcome.committed)

/-- Embedding of the whole booking section of `main` (lines 994–1074):
run `find_row`, fail if it raised or found nothing, otherwise commit. -/
def bookingPhase (w : RunWorld) : List Act × BookOutcome :=
  match findRow w.timeToken w.driftOkScan w.rowsAt with
  | Except.error e => ([], BookOutcome.failed e)
  | Except.ok none =>
    ([], BookOutcome.failed "Target class not found on target date.")
  | Except.ok (some _) => commitOnRow w

/-! ## Concrete example data used to instantiate the theorems -/

/-- A fully eligible session row: matches the class predicate, clean
status, exact `BOOK` CTA. -/
def goodRow : Row :=
  ⟨"6:15 PM - 7:00 PM  YS - Yoga Sculpt  Flatiron", ["BOOK"]⟩

/-- A second, distinct, fully eligible row (different duration text). -/
def secondRow : Row :=
  ⟨"6:15 PM - 7:30 PM  YS - Yoga Sculpt  Flatiron", ["BOOK"]⟩

/-- A row matching the class predicate but already waitlisted. -/
def waitlistRow : Row :=
  ⟨"6:15 PM - 7:00 PM  YS - Yoga Sculpt  Flatiron  Waitlisted",
   ["JOIN WAITLIST"]⟩

/-- A row matching the class predicate whose CTA merely contains the word
`book`. -/
def bookNowRow : Row :=
  ⟨"6:15 PM - 7:00 PM  YS - Yoga Sculpt  Flatiron", ["BOOK NOW"]⟩

/-- A row matching the class predicate that has already been booked. -/
def bookedRow : Row :=
  ⟨"6:15 PM - 7:00 PM  YS - Yoga Sculpt  Flatiron  Booked",
   ["CANCEL CLASS"]⟩

/-- The labels of the cancel-confirmation dialog's two options. -/
def cancelModalButtonLabels : List String :=
  ["CANCEL RESERVATION", "KEEP RESERVATION"]

/-- A run in which everything succeeds: the scan finds `goodRow`, all
pre-click guards pass, no cancel modal ever shows, execution is enabled. -/
def wCommit : RunWorld :=
  ⟨"6:15pm", fun _ => true, fun _ => [goodRow], true, true, false, false,
   cancelModalButtonLabels, true, goodRow⟩

/-- A run in which the cancel modal is already open before the click. -/
def wModalBefore : RunWorld :=
  ⟨"6:15pm", fun _ => true, fun _ => [goodRow], true, true, true, false,
   cancelModalButtonLabels, true, goodRow⟩

/-- A run in which the cancel modal appears right after the click. -/
def wModalAfter : RunWorld :=
  ⟨"6:15pm", fun _ => true, fun _ => [goodRow], true, true, false, true,
   cancelModalButtonLabels, true, goodRow⟩

/-- A dry run: identical to `wCommit` but with `EXECUTE_BOOKING` unset. -/
def wDry : RunWorld :=
  ⟨"6:15pm", fun _ => true, fun _ => [goodRow], false, true, false, false,
   cancelModalButtonLabels, true, goodRow⟩

/-- A run in which the matched row re-renders into a booked state between
the `find_row` pass that accepted it and the BOOK click. -/
def wStaleRow : RunWorld :=
  ⟨"6:15pm", fun _ => true, fun _ => [goodRow], true, true, false, false,
   cancelModalButtonLabels, true, bookedRow⟩

/-! ## Helper lemmas -/

theorem findRowPass_sound (tok : String) (rows : List Row) (r : Row)
    (h : findRowPass tok rows = some r) :
    r ∈ rows ∧ rowMatchesPred tok r = true ∧
      rowHasForbiddenStatus (normRowText r.text) = false ∧
      rowCtaText r = "book" := by
  have hmem := List.mem_of_find?_eq_some h
  have hp := List.find?_some h
  simp only [rowAccepted, Bool.and_eq_true, Bool.not_eq_true',
    beq_iff_eq] at hp
  exact ⟨hmem, hp.1.1, hp.1.2, hp.2⟩

theorem findRowLoop_sound (tok : String) (driftOk : Nat → Bool)
    (rowsAt : Nat → List Row) :
    ∀ (fuel a : Nat) (r : Row),
      findRowLoop tok driftOk rowsAt a fuel = Except.ok (some r) →
      ∃ j, a ≤ j ∧ j < a + fuel ∧ driftOk j = true ∧
        findRowPass tok (rowsAt j) = some r := by
  intro fuel
  induction fuel with
  | zero =>
    intro a r h
    simp [findRowLoop] at h
  | succ n ih =>
    intro a r h
    simp only [findRowLoop] at h
    by_cases hd : driftOk a
    · rw [if_pos hd] at h
      cases hp : findRowPass tok (rowsAt a) with
      | some r2 =>
        rw [hp] at h
        simp only [Except.ok.injEq, Option.some.injEq] at h
        exact ⟨a, Nat.le_refl a, by omega, hd, by rw [hp, h]⟩
      | none =>
        rw [hp] at h
        obtain ⟨j, h1, h2, h3, h4⟩ := ih (a + 1) r h
        exact ⟨j, by omega, by omega, h3, h4⟩
    · rw [if_neg hd] at h
      simp at h

theorem findRow_sound (tok : String) (driftOk : Nat → Bool)
    (rowsAt : Nat → List Row) (r : Row)
    (h : findRow tok driftOk rowsAt = Except.ok (some r)) :
    ∃ j, j < 26 ∧ driftOk j = true ∧ findRowPass tok (rowsAt j) = some r := by
  obtain ⟨j, _, h2, h3, h4⟩ := findRowLoop_sound tok driftOk rowsAt 26 0 r h
  exact ⟨j, by omega, h3, h4⟩

theorem findRowPass_head (tok : String) (r : Row) (rest : List Row)
    (h : rowAccepted tok r = true) :
    findRowPass tok (r :: rest) = some r := by
  simp [findRowPass, List.find?_cons_of_pos, h]

theorem dismissCancelModalSafe_keep_only (present : Bool)
    (bs : List String) (b : String)
    (h : dismissCancelModalSafe present bs = some b) :
    locHasTextCI b "KEEP RESERVATION" = true := by
  unfold dismissCancelModalSafe at h
  cases present with
  | false => simp at h
  | true =>
    rw [if_pos rfl] at h
    simpa using List.find?_some h

theorem clickBook_not_in_keepClickActs (bs : List String) :
    Act.clickBook ∉ keepClickActs bs := by
  unfold keepClickActs
  cases dismissCancelModalSafe true bs <;> simp

theorem keepClick_mem_keepClickActs (bs : List String) (b : String)
    (h : Act.keepClick b ∈ keepClickActs bs) :
    dismissCancelModalSafe true bs = some b := by
  unfold keepClickActs at h
  cases hd : dismissCancelModalSafe true bs <;> rw [hd] at h <;> simp at h
  rw [h]

theorem commitOnRow_committed (w : RunWorld)
    (h : (commitOnRow w).2 = BookOutcome.committed) :
    w.driftOkAtBook = true ∧ w.modalBefore = false ∧
      w.executeBooking = true ∧ w.bookCtaFound = true ∧
      w.modalAfter = false := by
  unfold commitOnRow at h
  split_ifs at h with h1 h2 h3 h4 h5
  simp_all

theorem commitOnRow_clickBook (w : RunWorld)
    (h : Act.clickBook ∈ (commitOnRow w).1) :
    w.driftOkAtBook = true ∧ w.modalBefore = false ∧
      w.executeBooking = true ∧ w.bookCtaFound = true := by
  unfold commitOnRow at h
  split_ifs at h with h1 h2 h3 h4 h5 <;>
    simp_all [clickBook_not_in_keepClickActs]

theorem commitOnRow_keepClick (w : RunWorld) (b : String)
    (h : Act.keepClick b ∈ (commitOnRow w).1) :
    locHasTextCI b "KEEP RESERVATION" = true := by
  unfold commitOnRow at h
  split_ifs at h <;> simp_all <;>
    exact dismissCancelModalSafe_keep_only true w.modalButtons b
      (keepClick_mem_keepClickActs w.modalButtons b (by simp_all))

/-! ## Claim C1 -/

/-- C1: if the cancel-confirmation dialog is observed at either observation
point of the commit phase, the run outcome is never `committed`; observing
it before the click terminates the attempt with a raised error; and the
only element of the dialog the engine ever clicks is one whose text
contains `KEEP RESERVATION` (the non-destructive option). -/
theorem c1_cancel_modal_never_committed :
    (∀ w : RunWorld, w.modalBefore = true ∨ w.modalAfter = true →
      (bookingPhase w).2 ≠ BookOutcome.committed) ∧
    (∀ w : RunWorld, w.modalBefore = true →
      ∃ msg, (bookingPhase w).2 = BookOutcome.failed msg) ∧
    (∀ (w : RunWorld) (b : String), Act.keepClick b ∈ (bookingPhase w).1 →
      locHasTextCI b "KEEP RESERVATION" = true) := by
  refine ⟨?_, ?_, ?_⟩
  · intro w hmodal hcommit
    unfold bookingPhase at hcommit
    cases hfind : findRow w.timeToken w.driftOkScan w.rowsAt with
    | error e => rw [hfind] at hcommit; simp at hcommit
    | ok o =>
      cases o with
      | none => rw [hfind] at hcommit; simp at hcommit
      | some r =>
        rw [hfind] at hcommit
        obtain ⟨_, hb, _, _, ha⟩ := commitOnRow_committed w hcommit
        cases hmodal with
        | inl h => rw [h] at hb; exact Bool.true_eq_false.mp hb
        | inr h => rw [h] at ha; exact Bool.true_eq_false.mp ha
  · intro w hmodal
    unfold bookingPhase
    cases hfind : findRow w.timeToken w.driftOkScan w.rowsAt with
    | error e => exact ⟨e, rfl⟩
    | ok o =>
      cases o with
      | none => exact ⟨_, rfl⟩
      | some r =>
        unfold commitOnRow
        split_ifs with h1
        · exact ⟨_, rfl⟩
        · exact ⟨_, rfl⟩
  · intro w b hmem
    unfold bookingPhase at hmem
    cases hfind : findRow w.timeToken w.driftOkScan w.rowsAt with
    | error e => rw [hfind] at hmem; simp at hmem
    | ok o =>
      cases o with
      | none => rw [hfind] at hmem; simp at hmem
      | some r =>
        rw [hfind] at hmem
        exact commitOnRow_keepClick w b hmem

/-- C1 witness: in the run `wModalBefore` the dialog is open before the
click; the outcome is a raised error, not `committed`, and the clicked
dialog option is the `KEEP RESERVATION` one. -/
theorem c1_witness :
    (bookingPhase wModalBefore).2 ≠ BookOutcome.committed ∧
    (∃ msg, (bookingPhase wModalBefore).2 = BookOutcome.failed msg) ∧
    locHasTextCI "KEEP RESERVATION" "KEEP RESERVATION" = true :=
  ⟨c1_cancel_modal_never_committed.1 wModalBefore (Or.inl rfl),
   c1_cancel_modal_never_committed.2.1 wModalBefore rfl,
   c1_cancel_modal_never_committed.2.2 wModalBefore "KEEP RESERVATION"
     (by decide)⟩

/-! ## Claim C2 -/

/-- C2 counterexample: in the run `wStaleRow` the matched row has
re-rendered into a booked state (forbidden status, `CANCEL CLASS` CTA) by
the time of the BOOK click, yet the click is still performed — the claimed
fresh re-extraction and re-check of statusText/ctaText does not happen. -/
theorem c2_counterexample :
    Act.clickBook ∈ (bookingPhase wStaleRow).1 ∧
    rowHasForbiddenStatus (normRowText wStaleRow.rowStateAtClick.text) =
      true ∧
    rowCtaText wStaleRow.rowStateAtClick ≠ "book" := by
  refine ⟨by decide, by decide, by decide⟩

/-- C2 amended: immediately before the BOOK click the committer does
synchronously re-run the target-day drift assertion, and no commit click
is performed when that fresh check is false (nor when the cancel modal is
already open, execution is disabled, or the exact BOOK CTA is missing);
moreover the clicked row was eligible — clean status and exact `book`
CTA — on the `find_row` pass that accepted it.  The row's statusText and
ctaText are, however, not re-extracted between that pass and the click. -/
theorem c2_fresh_drift_guard_before_click (w : RunWorld)
    (h : Act.clickBook ∈ (bookingPhase w).1) :
    w.driftOkAtBook = true ∧ w.modalBefore = false ∧
      w.executeBooking = true ∧ w.bookCtaFound = true ∧
      ∃ r, findRow w.timeToken w.driftOkScan w.rowsAt =
          Except.ok (some r) ∧
        rowHasForbiddenStatus (normRowText r.text) = false ∧
        rowCtaText r = "book" := by
  unfold bookingPhase at h
  cases hfind : findRow w.timeToken w.driftOkScan w.rowsAt with
  | error e => rw [hfind] at h; simp at h
  | ok o =>
    cases o with
    | none => rw [hfind] at h; simp at h
    | some r =>
      rw [hfind] at h
      obtain ⟨h1, h2, h3, h4⟩ := commitOnRow_clickBook w h
      obtain ⟨j, _, _, hpass⟩ := findRow_sound _ _ _ _ hfind
      obtain ⟨_, _, hforb, hcta⟩ := findRowPass_sound _ _ _ hpass
      exact ⟨h1, h2, h3, h4, r, rfl, hforb, hcta⟩

/-- C2 witness: in the clean run `wCommit` the BOOK click happens, and the
amended guard facts follow. -/
theorem c2_witness :
    wCommit.driftOkAtBook = true ∧ wCommit.modalBefore = false ∧
      wCommit.executeBooking = true ∧ wCommit.bookCtaFound = true ∧
      ∃ r, findRow wCommit.timeToken wCommit.driftOkScan wCommit.rowsAt =
          Except.ok (some r) ∧
        rowHasForbiddenStatus (normRowText r.text) = false ∧
        rowCtaText r = "book" :=
  c2_fresh_drift_guard_before_click wCommit (by decide)

/-! ## Claim C3 -/

/-- C3: a considered row is returned by the matcher iff its normalized text
contains no disqualifying status term, its normalized CTA text equals
`book` exactly (a CTA merely containing `book`, such as `BOOK NOW`, does
not qualify), and the drift check reports the target date selected on the
scan pass: (1) any returned row was scanned on a pass with the drift check
passing and satisfies both text conditions; (2) conversely a row matching
the class predicate and satisfying both conditions is returned; (3) when
the drift check never passes, no row is ever returned (the scan raises);
(4) the `BOOK NOW` CTA row is not returned. -/
theorem c3_eligibility_iff :
    (∀ (tok : String) (driftOk : Nat → Bool) (rowsAt : Nat → List Row)
        (r : Row), findRow tok driftOk rowsAt = Except.ok (some r) →
      ∃ a, a < 26 ∧ driftOk a = true ∧ r ∈ rowsAt a ∧
        rowMatchesPred tok r = true ∧
        rowHasForbiddenStatus (normRowText r.text) = false ∧
        rowCtaText r = "book") ∧
    (∀ (tok : String) (r : Row), rowMatchesPred tok r = true →
      rowHasForbiddenStatus (normRowText r.text) = false →
      rowCtaText r = "book" →
      findRow tok (fun _ => true) (fun _ => [r]) = Except.ok (some r)) ∧
    (∀ (tok : String) (rowsAt : Nat → List Row),
      findRow tok (fun _ => false) rowsAt =
        Except.error "Active day mismatch.") ∧
    findRow "6:15pm" (fun _ => true) (fun _ => [bookNowRow]) =
      Except.ok none := by
  refine ⟨?_, ?_, ?_, by rfl⟩
  · intro tok driftOk rowsAt r h
    obtain ⟨j, hj, hd, hpass⟩ := findRow_sound tok driftOk rowsAt r h
    obtain ⟨hmem, hm, hforb, hcta⟩ := findRowPass_sound tok _ r hpass
    exact ⟨j, hj, hd, hmem, hm, hforb, hcta⟩
  · intro tok r h1 h2 h3
    have haccept : rowAccepted tok r = true := by
      simp [rowAccepted, h1, h2, h3]
    have hpass := findRowPass_head tok r [] haccept
    simp only [findRow, findRowLoop, if_pos]
    rw [hpass]
  · intro tok rowsAt
    rfl

/-- C3 witness: the fully eligible `goodRow` is returned (second conjunct
applied at a concrete row), and so satisfies the first conjunct's
conclusion. -/
theorem c3_witness :
    findRow "6:15pm" (fun _ => true) (fun _ => [goodRow]) =
        Except.ok (some goodRow) ∧
      ∃ a, a < 26 ∧ (fun _ : Nat => true) a = true ∧
        goodRow ∈ (fun _ : Nat => [goodRow]) a ∧
        rowMatchesPred "6:15pm" goodRow = true ∧
        rowHasForbiddenStatus (normRowText goodRow.text) = false ∧
        rowCtaText goodRow = "book" :=
  ⟨c3_eligibility_iff.2.1 "6:15pm" goodRow (by decide) (by decide)
     (by decide),
   c3_eligibility_iff.1 "6:15pm" (fun _ => true) (fun _ => [goodRow])
     goodRow
     (c3_eligibility_iff.2.1 "6:15pm" goodRow (by decide) (by decide)
       (by decide))⟩

/-! ## Claim C4 -/

/-- C4: the matcher never returns a row whose normalized text contains a
disqualifying status term, for any drift behaviour, any rendered rows on
any scan pass and any target time token; in particular a `Waitlisted` row
that matches the time/location/category predicate exactly leads to no row
being found. -/
theorem c4_no_forbidden_row_returned :
    (∀ (tok : String) (driftOk : Nat → Bool) (rowsAt : Nat → List Row)
        (r : Row), findRow tok driftOk rowsAt = Except.ok (some r) →
      rowHasForbiddenStatus (normRowText r.text) = false) ∧
    rowMatchesPred "6:15pm" waitlistRow = true ∧
    findRow "6:15pm" (fun _ => true) (fun _ => [waitlistRow]) =
      Except.ok none := by
  refine ⟨?_, by decide, by rfl⟩
  intro tok driftOk rowsAt r h
  obtain ⟨j, _, _, hpass⟩ := findRow_sound tok driftOk rowsAt r h
  exact (findRowPass_sound tok _ r hpass).2.2.1

/-- C4 witness: applying the universal part to the concrete run that
returns `goodRow` shows its status text is clean. -/
theorem c4_witness :
    rowHasForbiddenStatus (normRowText goodRow.text) = false :=
  c4_no_forbidden_row_returned.1 "6:15pm" (fun _ => true)
    (fun _ => [goodRow]) goodRow (by rfl)

/-! ## Claim C5 -/

/-- C5 counterexample: with the result-list container visible at every poll
instant — so no absent/blank transition ever occurs — the waiter still
reports a reload as observed (once 0.6 s have elapsed). -/
theorem c5_counterexample :
    waitForSessionReload (fun _ => true) 9000 = true ∧
    ∀ j : Nat, (fun _ : Nat => true) j = true :=
  ⟨rfl, fun _ => rfl⟩

theorem waitReloadGo_sound (vis : Nat → Bool) (t : Nat) :
    ∀ (fuel k : Nat) (sawBlank : Bool), 150 * (k + fuel) ≥ t →
      (sawBlank = true → ∃ j, j < k ∧ vis j = false) →
      waitReloadGo vis t fuel k sawBlank = true →
      ∃ m, k ≤ m ∧ vis m = true ∧
        ((∃ j, j < m ∧ vis j = false) ∨ 150 * m > 600 ∨ 150 * m ≥ t) := by
  intro fuel
  induction fuel with
  | zero =>
    intro k sb hfuel hsb h
    simp only [waitReloadGo] at h
    exact ⟨k, Nat.le_refl k, h, Or.inr (Or.inr (by omega))⟩
  | succ n ih =>
    intro k sb hfuel hsb h
    simp only [waitReloadGo] at h
    by_cases htime : 150 * k ≥ t
    · rw [if_pos htime] at h
      exact ⟨k, Nat.le_refl k, h, Or.inr (Or.inr htime)⟩
    · rw [if_neg htime] at h
      by_cases hcond : (vis k && (sb || decide (150 * k > 600))) = true
      · rw [if_pos hcond] at h
        rw [Bool.and_eq_true, Bool.or_eq_true] at hcond
        obtain ⟨hv, hrest⟩ := hcond
        cases hrest with
        | inl hsb2 => exact ⟨k, Nat.le_refl k, hv, Or.inl (hsb hsb2)⟩
        | inr helapsed =>
          exact ⟨k, Nat.le_refl k, hv, Or.inr (Or.inl (of_decide_eq_true helapsed))⟩
      · rw [if_neg hcond] at h
        have hsb2 : (sb || !vis k) = true → ∃ j, j < k + 1 ∧ vis j = false := by
          intro hor
          rw [Bool.or_eq_true] at hor
          cases hor with
          | inl h2 =>
            obtain ⟨j, hj1, hj2⟩ := hsb h2
            exact ⟨j, by omega, hj2⟩
          | inr h2 =>
            exact ⟨k, by omega, by simpa using h2⟩
        obtain ⟨m, hm1, hm2, hm3⟩ := ih (k + 1) (sb || !vis k)
          (by omega) hsb2 h
        exact ⟨m, by omega, hm2, hm3⟩

/-- C5 amended: the reload waiter reports a reload as observed only when,
at some poll instant `m` within the window, the container is visible and
either it was seen absent at an earlier instant (a blank transition), or
more than 600 ms have already elapsed, or the timeout has been reached (so
a `true` result does not imply a blank transition was seen); it never
raises — a missing blank transition only yields the container's current
visibility at the end of the window. -/
theorem c5_reload_observed_characterization (vis : Nat → Bool) (t : Nat)
    (h : waitForSessionReload vis t = true) :
    ∃ m, vis m = true ∧
      ((∃ j, j < m ∧ vis j = false) ∨ 150 * m > 600 ∨ 150 * m ≥ t) := by
  obtain ⟨m, _, hm2, hm3⟩ := waitReloadGo_sound vis t (t / 150 + 1) 0 false
    (by omega) (by simp) h
  exact ⟨m, hm2, hm3⟩

/-- C5 witness: the always-visible trace from the counterexample
instantiates the amended characterization through its elapsed-time
disjunct. -/
theorem c5_witness :
    ∃ m, (fun _ : Nat => true) m = true ∧
      ((∃ j, j < m ∧ (fun _ : Nat => true) j = false) ∨ 150 * m > 600 ∨
        150 * m ≥ 9000) :=
  c5_reload_observed_characterization (fun _ => true) 9000 rfl

/-! ## Claim C6 -/

/-- C6 counterexample: ordinal 4 (a Thursday: January 4 of year 1) plus 13
days lands on a Wednesday, which is in the allow-list, so the run proceeds
instead of being skipped. -/
theorem c6_counterexample :
    weekdayNameOfOrdinal 4 = "Thursday" ∧
    weekdayNameOfOrdinal (4 + 13) = "Wednesday" ∧
    mvpMainDecision 4 = MvpOutcome.proceeded := by
  refine ⟨by decide, by decide, by decide⟩

/-- C6 amended: the allow-list is checked against the weekday of the
TARGET date (now + 13 days), which is the day before now's weekday; so a
Thursday "now" yields a Wednesday target and the run proceeds, and the run
is skipped with "not a booking day" exactly when now's weekday is not
Tuesday, Wednesday or Thursday. -/
theorem c6_thursday_proceeds :
    (∀ n : Nat, weekdayIdxOfOrdinal n = 3 →
      mvpMainDecision n = MvpOutcome.proceeded) ∧
    (∀ n : Nat, mvpMainDecision n = MvpOutcome.skipped "not a booking day" ↔
      ¬(weekdayIdxOfOrdinal n = 1 ∨ weekdayIdxOfOrdinal n = 2 ∨
        weekdayIdxOfOrdinal n = 3)) := by
  constructor
  · intro n h
    simp only [weekdayIdxOfOrdinal] at h
    have e : (n + 13 + 6) % 7 = 2 := by omega
    simp [mvpMainDecision, weekdayNameOfOrdinal, weekdayIdxOfOrdinal, e,
      validDays, weekdayFullNames]
  · intro n
    simp only [weekdayIdxOfOrdinal]
    have h7 : n % 7 = 0 ∨ n % 7 = 1 ∨ n % 7 = 2 ∨ n % 7 = 3 ∨ n % 7 = 4 ∨
        n % 7 = 5 ∨ n % 7 = 6 := by omega
    rcases h7 with h | h | h | h | h | h | h
    · have e : (n + 13 + 6) % 7 = 5 := by omega
      have f : (n + 6) % 7 = 6 := by omega
      simp [mvpMainDecision, weekdayNameOfOrdinal, weekdayIdxOfOrdinal, e, f,
        validDays, weekdayFullNames]
    · have e : (n + 13 + 6) % 7 = 6 := by omega
      have f : (n + 6) % 7 = 0 := by omega
      simp [mvpMainDecision, weekdayNameOfOrdinal, weekdayIdxOfOrdinal, e, f,
        validDays, weekdayFullNames]
    · have e : (n + 13 + 6) % 7 = 0 := by omega
      have f : (n + 6) % 7 = 1 := by omega
      simp [mvpMainDecision, weekdayNameOfOrdinal, weekdayIdxOfOrdinal, e, f,
        validDays, weekdayFullNames]
    · have e : (n + 13 + 6) % 7 = 1 := by omega
      have f : (n + 6) % 7 = 2 := by omega
      simp [mvpMainDecision, weekdayNameOfOrdinal, weekdayIdxOfOrdinal, e, f,
        validDays, weekdayFullNames]
    · have e : (n + 13 + 6) % 7 = 2 := by omega
      have f : (n + 6) % 7 = 3 := by omega
      simp [mvpMainDecision, weekdayNameOfOrdinal, weekdayIdxOfOrdinal, e, f,
        validDays, weekdayFullNames]
    · have e : (n + 13 + 6) % 7 = 3 := by omega
      have f : (n + 6) % 7 = 4 := by omega
      simp [mvpMainDecision, weekdayNameOfOrdinal, weekdayIdxOfOrdinal, e, f,
        validDays, weekdayFullNames]
    · have e : (n + 13 + 6) % 7 = 4 := by omega
      have f : (n + 6) % 7 = 5 := by omega
      simp [mvpMainDecision, weekdayNameOfOrdinal, weekdayIdxOfOrdinal, e, f,
        validDays, weekdayFullNames]

/-- C6 witness: applied at the concrete Thursday ordinal 4. -/
theorem c6_witness : mvpMainDecision 4 = MvpOutcome.proceeded :=
  c6_thursday_proceeds.1 4 (by decide)

/-! ## Claim C7 -/

/-- C7 counterexample: the resolver accepts the negative offset −5 and
returns a date (now − 5 days) instead of reporting a rejection. -/
theorem c7_counterexample :
    ((-5 : Int) < 0) ∧ targetDateRun 738885 (-5) = Except.ok 738880 :=
  ⟨by decide, by rfl⟩

/-- C7 amended: the resolver never validates the sign of the offset: for
every offset, including every negative one, whose resulting date stays
inside Python's representable date range it returns `now + offset`; and
its only failure mode is the `OverflowError` raised exactly when the
result leaves that range — never a rejection of negative input as such. -/
theorem c7_resolver_no_negative_validation :
    (∀ (nowOrd daysAhead : Int),
      dateMinOrd ≤ nowOrd + daysAhead → nowOrd + daysAhead ≤ dateMaxOrd →
      targetDateRun nowOrd daysAhead = Except.ok (nowOrd + daysAhead)) ∧
    (∀ (nowOrd daysAhead : Int),
      (∃ msg, targetDateRun nowOrd daysAhead = Except.error msg) ↔
        (nowOrd + daysAhead < dateMinOrd ∨ dateMaxOrd < nowOrd + daysAhead)) := by
  constructor
  · intro nowOrd daysAhead h1 h2
    unfold targetDateRun
    rw [if_pos ⟨h1, h2⟩]
  · intro nowOrd daysAhead
    constructor
    · intro ⟨msg, hmsg⟩
      unfold targetDateRun at hmsg
      by_cases hc : dateMinOrd ≤ nowOrd + daysAhead ∧
          nowOrd + daysAhead ≤ dateMaxOrd
      · rw [if_pos hc] at hmsg
        simp at hmsg
      · rcases not_and_or.mp hc with h | h
        · exact Or.inl (not_le.mp h)
        · exact Or.inr (not_le.mp h)
    · intro h
      unfold targetDateRun
      rw [if_neg]
      · exact ⟨_, rfl⟩
      · intro hc
        cases h with
        | inl h2 => exact absurd hc.1 (not_le.mpr h2)
        | inr h2 => exact absurd hc.2 (not_le.mpr h2)

/-- C7 witness: at the concrete negative offset −5 from a 2024 date both
range hypotheses hold and the resolver produces the shifted date. -/
theorem c7_witness :
    targetDateRun 738885 (-5) = Except.ok (738885 + (-5)) ∧
    ((∃ msg, targetDateRun 1 (-2) = Except.error msg) ↔
      (1 + (-2 : Int) < dateMinOrd ∨ dateMaxOrd < 1 + (-2 : Int))) :=
  ⟨c7_resolver_no_negative_validation.1 738885 (-5) (by decide) (by decide),
   c7_resolver_no_negative_validation.2 1 (-2)⟩

/-! ## Claim C8 -/

/-- C8 counterexample: two distinct rendered rows both satisfy the full
matching predicate, yet the run does not fail with an ambiguity error —
the matcher silently returns the first of them. -/
theorem c8_counterexample :
    rowAccepted "6:15pm" goodRow = true ∧
    rowAccepted "6:15pm" secondRow = true ∧
    goodRow ≠ secondRow ∧
    findRow "6:15pm" (fun _ => true) (fun _ => [goodRow, secondRow]) =
      Except.ok (some goodRow) := by
  refine ⟨by decide, by decide, by decide, by rfl⟩

/-- C8 amended: when more than one rendered row satisfies the matching
predicate, the matcher returns the first match in rendered order —
whatever rows follow it — rather than treating the ambiguity as fatal. -/
theorem c8_first_match_returned (tok : String) (r : Row) (rest : List Row)
    (h : rowAccepted tok r = true) :
    findRow tok (fun _ => true) (fun _ => r :: rest) =
      Except.ok (some r) := by
  have hpass := findRowPass_head tok r rest h
  simp only [findRow, findRowLoop, if_pos]
  rw [hpass]

/-- C8 witness: applied with a second eligible row behind the first. -/
theorem c8_witness :
    findRow "6:15pm" (fun _ => true) (fun _ => goodRow :: [secondRow]) =
      Except.ok (some goodRow) :=
  c8_first_match_returned "6:15pm" goodRow [secondRow] (by decide)

/-! ## Claim C9 -/

/-- C9: the heading normalization assigns the current year and then
corrects for rollover: the year is incremented exactly when the candidate
falls more than 200 days before today, decremented exactly when it falls
more than 200 days after today, and kept otherwise; at a Dec/Jan boundary
a heading resolves to the calendar date on the correct side (seen from
late December, `Jan 10` resolves to January of the NEXT year; seen from
early January, `Dec 30` resolves to December of the PREVIOUS year). -/
theorem c9_year_rollover_correction :
    (∀ (now : Date) (m d : Nat),
      resolveHeadingDate now m d =
        if (toOrdinal now : Int) - toOrdinal (⟨now.year, m, d⟩ : Date) >
            200 then
          (⟨now.year + 1, m, d⟩ : Date)
        else if (toOrdinal (⟨now.year, m, d⟩ : Date) : Int) -
            toOrdinal now > 200 then
          (⟨now.year - 1, m, d⟩ : Date)
        else ⟨now.year, m, d⟩) ∧
    resolveHeadingDate ⟨2026, 12, 28⟩ 1 10 = ⟨2027, 1, 10⟩ ∧
    resolveHeadingDate ⟨2027, 1, 5⟩ 12 30 = ⟨2026, 12, 30⟩ := by
  refine ⟨?_, by decide, by decide⟩
  intro now m d
  simp only [resolveHeadingDate]
  split_ifs with h1 h2 h3 h4 <;> first | rfl | omega

/-! ## Claim C10 -/

/-- C10: the BOOK click is performed only in runs whose `EXECUTE_BOOKING`
environment value, trimmed and lower-cased, is one of `1`, `true`, `yes`,
`y`; with the flag off no commit click ever occurs, while (when the guards
pass on a matched row) the run still executes the scan and the pre-click
day assertion and ends as a dry run; the unset variable defaults to the
dry run. -/
theorem c10_execute_booking_gate :
    (∀ (env : Option String) (w : RunWorld),
      w.executeBooking = parseExecuteBooking env →
      Act.clickBook ∈ (bookingPhase w).1 →
      parseExecuteBooking env = true) ∧
    (∀ w : RunWorld, w.executeBooking = false →
      Act.clickBook ∉ (bookingPhase w).1) ∧
    (∀ (w : RunWorld) (r : Row), w.executeBooking = false →
      w.driftOkAtBook = true → w.modalBefore = false →
      findRow w.timeToken w.driftOkScan w.rowsAt = Except.ok (some r) →
      (bookingPhase w).2 = BookOutcome.dryRun ∧
        Act.assertDayGate ∈ (bookingPhase w).1) ∧
    parseExecuteBooking none = false ∧
    (∀ s : String, parseExecuteBooking (some s) = true ↔
      (trimLower s = "1" ∨ trimLower s = "true" ∨ trimLower s = "yes" ∨
        trimLower s = "y")) := by
  have hclick : ∀ w : RunWorld, Act.clickBook ∈ (bookingPhase w).1 →
      w.executeBooking = true := by
    intro w h
    unfold bookingPhase at h
    cases hfind : findRow w.timeToken w.driftOkScan w.rowsAt with
    | error e => rw [hfind] at h; simp at h
    | ok o =>
      cases o with
      | none => rw [hfind] at h; simp at h
      | some r =>
        rw [hfind] at h
        exact (commitOnRow_clickBook w h).2.2.1
  refine ⟨?_, ?_, ?_, by decide, ?_⟩
  · intro env w hw h
    rw [← hw]
    exact hclick w h
  · intro w hw h
    rw [hclick w h] at hw
    exact Bool.true_eq_false.mp hw
  · intro w r hexec hdrift hmodal hfind
    unfold bookingPhase
    rw [hfind]
    unfold commitOnRow
    rw [hdrift, hmodal, hexec]
    simp
  · intro s
    simp only [parseExecuteBooking, Option.getD]
    simp [List.contains_eq_any_beq, List.any_eq_true, beq_iff_eq]

/-- C10 witness: in `wDry` (flag off, all guards passing) no click happens
and the outcome is a dry run after the day assertion; the off-by-default
and on-for-TRUE parses are exercised at concrete strings. -/
theorem c10_witness :
    Act.clickBook ∉ (bookingPhase wDry).1 ∧
    ((bookingPhase wDry).2 = BookOutcome.dryRun ∧
      Act.assertDayGate ∈ (bookingPhase wDry).1) ∧
    parseExecuteBooking (some " TRUE ") = true :=
  ⟨c10_execute_booking_gate.2.1 wDry rfl,
   c10_execute_booking_gate.2.2.1 wDry goodRow rfl rfl rfl (by rfl),
   (c10_execute_booking_gate.2.2.2.2 " TRUE ").mpr (Or.inr (Or.inl
     (by decide)))⟩

end Aloni
